import Mathlib

/-!
Verification model of the WhatsZap directory-watching core
(`app/src/main/cpp/file_monitor.cpp` and `app/src/main/cpp/native-lib.cpp`).

The C++ code is shallowly embedded: the inotify record parse loop becomes a
pure function over byte lists, the watcher lifecycle becomes explicit state
passing over a `World` record whose fields mirror the C++ object's fields and
the OS resources it owns, and every OS / JNI call that can fail is driven by
an explicit environment of boolean outcomes.
-/

namespace WhatsZap

/-! ## Byte strings and the APK-name predicate (FileMonitor::isApkFile) -/

/-- Bytes of a Lean string literal, used only to write concrete examples. -/
def strBytes (s : String) : List Nat := s.toList.map Char.toNat

/-- `::tolower` in the C locale: maps `A`..`Z` (65..90) to `a`..`z`, leaves
every other byte unchanged. -/
def toLowerByte (b : Nat) : Nat := if 65 ≤ b ∧ b ≤ 90 then b + 32 else b

/-- `FileMonitor::isApkFile` (file_monitor.cpp lines 245-254): reject names
that are empty or shorter than 4 bytes, lowercase the whole name, and compare
the last 4 bytes of the lowercased name with `".apk"`. -/
def isApkFile (filename : List Nat) : Bool :=
  if filename.isEmpty || filename.length < 4 then false
  else
    let lower := filename.map toLowerByte
    lower.drop (lower.length - 4) == strBytes ".apk"

/-- The claim's wording of the predicate: length at least 4, and the last
4 bytes, lowercased, equal `".apk"`. (Note the order of drop and lowercase is
swapped relative to the code.) -/
def isApkFileSpec (s : List Nat) : Prop :=
  4 ≤ s.length ∧ (s.drop (s.length - 4)).map toLowerByte = strBytes ".apk"

/-! ## The record decoder (parse loop, file_monitor.cpp lines 161-229)

An inotify record is a 16-byte little-endian header
`{ int wd; uint32 mask; uint32 cookie; uint32 len; }` followed by `len` name
bytes.  The loop breaks when fewer than 16 bytes remain, or when fewer than
`16 + len` bytes remain; a record with `len = 0` is skipped; the name string
is read with `std::string(event->name)`, i.e. up to the first NUL byte
(not bounded by `len` — faithful to the source). -/

/-- Value of a 4-byte little-endian field. -/
def le4 (b0 b1 b2 b3 : Nat) : Nat := b0 + 256 * b1 + 65536 * b2 + 16777216 * b3

/-- `std::string` built from a `char*`: the bytes up to the first NUL. -/
def cString (bs : List Nat) : List Nat := bs.takeWhile (fun b => b != 0)

/-- One decoded change record: event mask and the (NUL-stripped) name. -/
structure ChangeRecord where
  mask : Nat
  name : List Nat
deriving DecidableEq

/-- The parse loop of `monitorThread` as a pure function on the byte buffer
returned by `read`.  Mirrors the bounds checks at lines 164 and 173, the
`len > 0` check at line 178, and the advance `i += 16 + len` at line 228. -/
def decode : List Nat → List ChangeRecord
  | w0 :: w1 :: w2 :: w3 :: m0 :: m1 :: m2 :: m3 ::
    c0 :: c1 :: c2 :: c3 :: l0 :: l1 :: l2 :: l3 :: rest =>
    let _ := le4 w0 w1 w2 w3
    let _ := le4 c0 c1 c2 c3
    let len := le4 l0 l1 l2 l3
    if rest.length < len then []
    else
      let recs := decode (rest.drop len)
      if 0 < len then { mask := le4 m0 m1 m2 m3, name := cString rest } :: recs
      else recs
  | _ => []
termination_by buf => buf.length
decreasing_by
  simp [List.length_drop]
  omega

/-- An abstract raw event to be serialized into the kernel's wire format. -/
structure RawEvent where
  wd : Nat
  mask : Nat
  cookie : Nat
  name : List Nat
deriving DecidableEq

/-- Little-endian 4-byte encoding of a field value. -/
def encodeLE4 (n : Nat) : List Nat :=
  [n % 256, n / 256 % 256, n / 65536 % 256, n / 16777216 % 256]

/-- Wire format of one inotify record: 16-byte header then the name bytes
(whose count is the declared `len`). -/
def encodeEvent (e : RawEvent) : List Nat :=
  encodeLE4 e.wd ++ encodeLE4 e.mask ++ encodeLE4 e.cookie ++
    encodeLE4 e.name.length ++ e.name

/-- A buffer of back-to-back records followed by a trailing byte sequence. -/
def encodeAll (rs : List RawEvent) (t : List Nat) : List Nat :=
  rs.foldr (fun e acc => encodeEvent e ++ acc) t

/-- The change record the decoder produces for a raw event. -/
def toChangeRecord (e : RawEvent) : ChangeRecord :=
  { mask := e.mask % 4294967296, name := cString e.name }

/-- A fully-formed record: nonempty name, representable declared length, and
a NUL terminator present in the name field (as inotify guarantees). -/
def WFEvent (e : RawEvent) : Prop :=
  0 < e.name.length ∧ e.name.length < 4294967296 ∧ 0 ∈ e.name

/-- The declared name length of the record at the head of a buffer
(0 when fewer than 16 bytes remain). -/
def declaredLen : List Nat → Nat
  | _ :: _ :: _ :: _ :: _ :: _ :: _ :: _ ::
    _ :: _ :: _ :: _ :: l0 :: l1 :: l2 :: l3 :: _ => le4 l0 l1 l2 l3
  | _ => 0

/-- A truncated partial record: shorter than a header, or shorter than
header plus declared name length. -/
def truncatedTail (t : List Nat) : Prop :=
  t.length < 16 ∨ t.length < 16 + declaredLen t

instance : DecidablePred WFEvent := fun e => by unfold WFEvent; infer_instance

instance (t : List Nat) : Decidable (truncatedTail t) := by
  unfold truncatedTail; infer_instance

/-! ## Watcher lifecycle (FileMonitor, file_monitor.cpp lines 13-243)

`World` carries the two atomic flags of the `FileMonitor` object, the OS /
JNI resources the session owns (count of global callback references, inotify
fd, watch registration), and the progress of the background thread.  The
thread's cleanup block (lines 233-243) is a sequence of atomic steps so that
the interleaving of `stopMonitoring` with a self-terminating loop can be
stated; `Phase` names the point the thread has reached. -/

/-- Progress of the background thread.  The cleanup phases mirror the
statement order of lines 234-242: `inotify_rm_watch`, `close`,
`monitoring_ = false`, `DeleteGlobalRef`, detach and return. -/
inductive Phase
  | idle
  | starting
  | looping
  | afterRm
  | afterClose
  | afterFlag
  | afterRef
  | exitedThread
deriving DecidableEq

/-- State of one `FileMonitor` plus the resources its session owns. -/
structure World where
  monitoring : Bool
  shouldStop : Bool
  refCount : Nat
  fdOpen : Bool
  watchOn : Bool
  phase : Phase
deriving DecidableEq

/-- A freshly constructed `FileMonitor` (constructor, line 13). -/
def World.initial : World :=
  { monitoring := false, shouldStop := false, refCount := 0,
    fdOpen := false, watchOn := false, phase := Phase.idle }

/-- Outcomes of the fallible OS / JNI calls made during start-up:
`stat` on the directory, `GetJavaVM`, `NewGlobalRef` (in `startMonitoring`),
then `AttachCurrentThread`, `inotify_init1`, `inotify_add_watch`
(in the spawned thread). -/
structure StartEnv where
  dirOk : Bool
  jvmOk : Bool
  refOk : Bool
  attachOk : Bool
  initOk : Bool
  watchOk : Bool
deriving DecidableEq

/-- `FileMonitor::startMonitoring` (lines 20-58): reject when already
monitoring; check the directory; get the JavaVM; promote the callback to a
global reference; clear `shouldStop_`, set `monitoring_`, spawn the thread,
and return `true`.  The inotify calls are NOT made here — they happen later
in the thread. -/
def startMonitoring (w : World) (env : StartEnv) : Bool × World :=
  if w.monitoring then (false, w)
  else if ¬ env.dirOk then (false, w)
  else if ¬ env.jvmOk then (false, w)
  else if ¬ env.refOk then (false, w)
  else
    (true, { w with shouldStop := false, monitoring := true,
                    refCount := w.refCount + 1, phase := Phase.starting })

/-- Initialization section of `FileMonitor::monitorThread` (lines 75-123):
attach to the JVM (on failure, return WITHOUT touching `monitoring_` or the
global reference — lines 92-97); create the inotify instance (on failure,
clear `monitoring_`, delete the global reference, detach, return — lines
102-109); add the watch (on failure, close the fd as well — lines 112-121);
otherwise enter the poll loop. -/
def threadInit (w : World) (env : StartEnv) : World :=
  if ¬ env.attachOk then { w with phase := Phase.exitedThread }
  else if ¬ env.initOk then
    { w with monitoring := false, refCount := w.refCount - 1,
             phase := Phase.exitedThread }
  else if ¬ env.watchOk then
    { w with fdOpen := false, monitoring := false, refCount := w.refCount - 1,
             phase := Phase.exitedThread }
  else { w with fdOpen := true, watchOn := true, phase := Phase.looping }

/-- One atomic step of the background thread once it is past the loop test
or inside the cleanup block (lines 127 and 233-243). -/
def threadStep (w : World) : World :=
  match w.phase with
  | Phase.looping =>
      if w.shouldStop ∨ ¬ w.monitoring then
        { w with phase := Phase.afterRm, watchOn := false }
      else w
  | Phase.afterRm => { w with phase := Phase.afterClose, fdOpen := false }
  | Phase.afterClose => { w with phase := Phase.afterFlag, monitoring := false }
  | Phase.afterFlag => { w with phase := Phase.afterRef, refCount := w.refCount - 1 }
  | Phase.afterRef => { w with phase := Phase.exitedThread }
  | _ => w

/-- Iterated thread steps. -/
def runSteps : Nat → World → World
  | 0, w => w
  | n + 1, w => runSteps n (threadStep w)

/-- The `break` taken on a `select` failure with `errno != EINTR`
(lines 138-141): the loop exits regardless of the flags and cleanup begins. -/
def breakLoop (w : World) : World :=
  { w with phase := Phase.afterRm, watchOn := false }

/-- `FileMonitor::stopMonitoring` (lines 60-73): return immediately when
`monitoring_` is false; otherwise set `shouldStop_`, clear `monitoring_`,
and join the thread — modelled by running the thread to completion (five
steps reach `exitedThread` from any live phase). -/
def stopMonitoring (w : World) : World :=
  if ¬ w.monitoring then w
  else runSteps 5 { w with shouldStop := true, monitoring := false }

/-! ## One iteration of the poll loop (lines 127-159) -/

/-- Outcome of the `select` call (lines 136-149). -/
inductive SelectOutcome
  | selErr (isEINTR : Bool)
  | selTimeout
  | selReady
deriving DecidableEq

/-- Outcome of the `read` call (lines 152-159). -/
inductive ReadOutcome
  | readOk (bytes : List Nat)
  | readErr (wouldBlock : Bool)
deriving DecidableEq

/-- Whether the loop runs another iteration or exits. -/
inductive LoopControl
  | next
  | exitLoop
deriving DecidableEq

/-- Control decision of one loop iteration: a `select` error other than
EINTR breaks the loop (line 141); EINTR continues; a timeout continues; and
after `read`, BOTH the would-block case and every other read error fall into
the same `continue` (lines 154-159), as does a successful read once the
buffer has been processed. -/
def loopIterControl (sel : SelectOutcome) (rd : ReadOutcome) : LoopControl :=
  match sel with
  | SelectOutcome.selErr isEINTR =>
      if isEINTR then LoopControl.next else LoopControl.exitLoop
  | SelectOutcome.selTimeout => LoopControl.next
  | SelectOutcome.selReady =>
      match rd with
      | ReadOutcome.readErr _ => LoopControl.next
      | ReadOutcome.readOk _ => LoopControl.next

/-! ## Per-record processing (lines 178-228) -/

/-- Outcomes of the fallible calls made while handling one candidate:
the post-settle `stat` + `S_ISREG` check, `GetObjectClass`, `GetMethodID`,
`NewStringUTF`, and whether the Java callback threw. -/
structure DeliverEnv where
  statIsRegularFile : Bool
  classOk : Bool
  methodOk : Bool
  stringOk : Bool
  callbackThrows : Bool
deriving DecidableEq

/-- What happened to one decoded record. -/
inductive RecordOutcome
  | notApk
  | statFailed
  | classMissing
  | methodMissing
  | stringFailed
  | delivered (exceptionCaught : Bool)
deriving DecidableEq

/-- Handling of one record with a nonempty name (lines 179-228): filter by
`isApkFile`, settle 500 ms, re-stat, look up the callback class and method,
build the path string, invoke the callback, and clear any pending Java
exception (lines 210-214).  Every branch ends in `continue` / falling
through to `i += eventSize`; none of them breaks the loop. -/
def processRecord (name : List Nat) (env : DeliverEnv) : RecordOutcome × LoopControl :=
  if isApkFile name then
    if env.statIsRegularFile then
      if env.classOk then
        if env.methodOk then
          if env.stringOk then
            (RecordOutcome.delivered env.callbackThrows, LoopControl.next)
          else (RecordOutcome.stringFailed, LoopControl.next)
        else (RecordOutcome.methodMissing, LoopControl.next)
      else (RecordOutcome.classMissing, LoopControl.next)
    else (RecordOutcome.statFailed, LoopControl.next)
  else (RecordOutcome.notApk, LoopControl.next)

/-- Sequential handling of a buffer's worth of decoded records: stops early
only if some record's handling were to exit the loop. -/
def processRecords : List (List Nat) → List DeliverEnv → List RecordOutcome
  | [], _ => []
  | n :: rest, envs =>
    match processRecord n (envs.headD ⟨true, true, true, true, false⟩) with
    | (o, LoopControl.exitLoop) => [o]
    | (o, LoopControl.next) => o :: processRecords rest envs.tail

/-! ## JNI entry points (native-lib.cpp) -/

/-- `nativeStartMonitoring` (lines 34-76): reject a zero handle, a null
directory or callback, and a failed `GetStringUTFChars`; then call
`startMonitoring`; a pending Java exception afterwards turns the result into
`JNI_FALSE`. -/
def nativeStartMonitoring (handle : Nat) (directory : Option (List Nat))
    (callback : Option Unit) (w : World) (env : StartEnv)
    (getCharsOk : Bool) (excAfter : Bool) : Bool × World :=
  if handle = 0 then (false, w)
  else
    match directory, callback with
    | some _, some _ =>
      if ¬ getCharsOk then (false, w)
      else
        let r := startMonitoring w env
        if excAfter then (false, r.2) else r
    | _, _ => (false, w)

/-- `nativeStopMonitoring` (lines 78-89): no-op on a zero handle. -/
def nativeStopMonitoring (handle : Nat) (w : World) : World :=
  if handle = 0 then w else stopMonitoring w

/-- `nativeDestroyFileMonitor` (lines 91-102): no-op on a zero handle,
otherwise `delete` (whose destructor runs `stopMonitoring`, line 16-18).
The boolean records whether the object was deleted. -/
def nativeDestroyFileMonitor (handle : Nat) (w : World) : World × Bool :=
  if handle = 0 then (w, false) else (stopMonitoring w, true)

/-- `nativeScanApk` (lines 113-241): return null on a zero handle, a null
`apkPath`, or a failed `GetStringUTFChars`; only then touch the scanner,
abstracted as the continuation `doScan` (the `MalwareScanner` internals and
the Java result-object construction are outside the guard behaviour this
models). -/
def nativeScanApk (α : Type) (handle : Nat) (apkPath : Option (List Nat))
    (getCharsOk : Bool) (doScan : List Nat → Option α) : Option α :=
  if handle = 0 then none
  else
    match apkPath with
    | none => none
    | some p => if ¬ getCharsOk then none else doScan p

/-- `nativeDestroyMalwareScanner` (lines 243-254): no-op on a zero handle;
the boolean records whether the scanner object was deleted. -/
def nativeDestroyMalwareScanner (handle : Nat) : Bool :=
  if handle = 0 then false else true

/-! ## Concrete inputs used by counterexamples and witnesses -/

/-- A start environment in which everything succeeds except the creation of
the inotify instance (the kernel event source). -/
def envInitFail : StartEnv :=
  { dirOk := true, jvmOk := true, refOk := true,
    attachOk := true, initOk := false, watchOk := true }

/-- A start environment in which everything succeeds except
`AttachCurrentThread`. -/
def envAttachFail : StartEnv :=
  { dirOk := true, jvmOk := true, refOk := true,
    attachOk := false, initOk := true, watchOk := true }

/-- A start environment in which every call succeeds. -/
def envAllOk : StartEnv :=
  { dirOk := true, jvmOk := true, refOk := true,
    attachOk := true, initOk := true, watchOk := true }

/-- A healthy mid-session world: thread in the poll loop, one global
callback reference, fd open, watch registered. -/
def wLive : World :=
  { monitoring := true, shouldStop := false, refCount := 1,
    fdOpen := true, watchOn := true, phase := Phase.looping }

/-- The world two cleanup steps after the loop broke on its own (a `select`
failure): `monitoring_` has just been cleared (line 236) but the global
callback reference has not yet been released (line 239). -/
def wMidCleanup : World := threadStep (threadStep (breakLoop wLive))

/-- A concrete fully-formed record: name bytes `"a.apk"` plus NUL padding. -/
def evApk : RawEvent :=
  { wd := 1, mask := 8, cookie := 0, name := [97, 46, 97, 112, 107, 0, 0, 0] }

/-- A concrete record with declared name length zero. -/
def evNoName : RawEvent := { wd := 1, mask := 256, cookie := 0, name := [] }

/-! ## Decoder lemmas -/

theorem cString_append (l r : List Nat) (h : 0 ∈ l) : cString (l ++ r) = cString l := by
  induction l with
  | nil => simp at h
  | cons a l ih =>
    by_cases ha : a = 0
    · simp [cString, ha]
    · have hl : 0 ∈ l := by
        rcases List.mem_cons.mp h with h' | h'
        · exact absurd h'.symm ha
        · exact h'
      simp only [cString, List.cons_append, List.takeWhile_cons]
      have : (a != 0) = true := by simpa using ha
      simp only [this, if_true]
      have := ih hl
      simp only [cString] at this
      rw [this]

theorem decode_short (t : List Nat) (h : t.length < 16) : decode t = [] := by
  rcases t with _ | ⟨b0, t⟩; · simp [decode]
  rcases t with _ | ⟨b1, t⟩; · simp [decode]
  rcases t with _ | ⟨b2, t⟩; · simp [decode]
  rcases t with _ | ⟨b3, t⟩; · simp [decode]
  rcases t with _ | ⟨b4, t⟩; · simp [decode]
  rcases t with _ | ⟨b5, t⟩; · simp [decode]
  rcases t with _ | ⟨b6, t⟩; · simp [decode]
  rcases t with _ | ⟨b7, t⟩; · simp [decode]
  rcases t with _ | ⟨b8, t⟩; · simp [decode]
  rcases t with _ | ⟨b9, t⟩; · simp [decode]
  rcases t with _ | ⟨b10, t⟩; · simp [decode]
  rcases t with _ | ⟨b11, t⟩; · simp [decode]
  rcases t with _ | ⟨b12, t⟩; · simp [decode]
  rcases t with _ | ⟨b13, t⟩; · simp [decode]
  rcases t with _ | ⟨b14, t⟩; · simp [decode]
  rcases t with _ | ⟨b15, t⟩; · simp [decode]
  simp at h
  omega

theorem decode_truncated (t : List Nat) (ht : truncatedTail t) : decode t = [] := by
  rcases t with _ | ⟨b0, t⟩; · simp [decode]
  rcases t with _ | ⟨b1, t⟩; · simp [decode]
  rcases t with _ | ⟨b2, t⟩; · simp [decode]
  rcases t with _ | ⟨b3, t⟩; · simp [decode]
  rcases t with _ | ⟨b4, t⟩; · simp [decode]
  rcases t with _ | ⟨b5, t⟩; · simp [decode]
  rcases t with _ | ⟨b6, t⟩; · simp [decode]
  rcases t with _ | ⟨b7, t⟩; · simp [decode]
  rcases t with _ | ⟨b8, t⟩; · simp [decode]
  rcases t with _ | ⟨b9, t⟩; · simp [decode]
  rcases t with _ | ⟨b10, t⟩; · simp [decode]
  rcases t with _ | ⟨b11, t⟩; · simp [decode]
  rcases t with _ | ⟨b12, t⟩; · simp [decode]
  rcases t with _ | ⟨b13, t⟩; · simp [decode]
  rcases t with _ | ⟨b14, t⟩; · simp [decode]
  rcases t with _ | ⟨b15, t⟩; · simp [decode]
  have hlt : t.length < le4 b12 b13 b14 b15 := by
    rcases ht with h | h
    · simp at h; omega
    · simp [declaredLen] at h
      omega
  simp [decode, hlt]

theorem decode_encode (e : RawEvent) (rest : List Nat)
    (h32 : e.name.length < 4294967296)
    (hn : e.name = [] ∨ 0 ∈ e.name) :
    decode (encodeEvent e ++ rest) =
      if 0 < e.name.length then toChangeRecord e :: decode rest
      else decode rest := by
  have hchain : encodeEvent e ++ rest =
      (e.wd % 256) :: (e.wd / 256 % 256) :: (e.wd / 65536 % 256) :: (e.wd / 16777216 % 256) ::
      (e.mask % 256) :: (e.mask / 256 % 256) :: (e.mask / 65536 % 256) :: (e.mask / 16777216 % 256) ::
      (e.cookie % 256) :: (e.cookie / 256 % 256) :: (e.cookie / 65536 % 256) :: (e.cookie / 16777216 % 256) ::
      (e.name.length % 256) :: (e.name.length / 256 % 256) :: (e.name.length / 65536 % 256) :: (e.name.length / 16777216 % 256) ::
      (e.name ++ rest) := by
    simp [encodeEvent, encodeLE4]
  rw [hchain]
  have hlen : le4 (e.name.length % 256) (e.name.length / 256 % 256)
      (e.name.length / 65536 % 256) (e.name.length / 16777216 % 256) = e.name.length := by
    unfold le4; omega
  have hmask : le4 (e.mask % 256) (e.mask / 256 % 256)
      (e.mask / 65536 % 256) (e.mask / 16777216 % 256) = e.mask % 4294967296 := by
    unfold le4; omega
  rw [decode]
  simp only [hlen, hmask, List.length_append]
  have hcond : ¬ (e.name.length + rest.length < e.name.length) := by
    omega
  rw [if_neg hcond]
  rw [List.drop_left]
  by_cases hpos : 0 < e.name.length
  · have hnul : 0 ∈ e.name := by
      rcases hn with h | h
      · simp [h] at hpos
      · exact h
    rw [if_pos hpos, if_pos hpos, cString_append _ _ hnul]
    rfl
  · rw [if_neg hpos, if_neg hpos]

/-! ## Claim theorems -/

/-- Claim C5: a byte buffer of N fully-formed change records (nonempty,
NUL-terminated name of representable length) followed by a truncated partial
record — shorter than a header, or shorter than header plus declared name
length — decodes to exactly the N records; the trailing partial record is
discarded and the result does not depend on the tail's bytes (the tail is
universally quantified), so no byte past the fully-formed span influences
the outcome. -/
theorem decoder_yields_exactly_the_full_records (rs : List RawEvent) (t : List Nat)
    (hwf : ∀ e ∈ rs, WFEvent e) (ht : truncatedTail t) :
    decode (encodeAll rs t) = rs.map toChangeRecord ∧
    (decode (encodeAll rs t)).length = rs.length := by
  have main : decode (encodeAll rs t) = rs.map toChangeRecord := by
    induction rs with
    | nil => simpa [encodeAll] using decode_truncated t ht
    | cons e rs ih =>
      have he := hwf e (List.mem_cons_self e rs)
      have hrs : ∀ x ∈ rs, WFEvent x := fun x hx => hwf x (List.mem_cons_of_mem e hx)
      have hstep : encodeAll (e :: rs) t = encodeEvent e ++ encodeAll rs t := rfl
      rw [hstep, decode_encode e _ he.2.1 (Or.inr he.2.2), if_pos he.1, ih hrs]
      simp
  exact ⟨main, by rw [main]; simp⟩

/-- Witness for C5 at one concrete record and a 3-byte truncated tail. -/
theorem decoder_yields_exactly_the_full_records_witness :
    decode (encodeAll [evApk] [7, 0, 0]) = [evApk].map toChangeRecord ∧
    (decode (encodeAll [evApk] [7, 0, 0])).length = [evApk].length :=
  decoder_yields_exactly_the_full_records [evApk] [7, 0, 0] (by decide) (by decide)

/-- Claim C8: a well-formed record whose declared name length is zero is
skipped — the decoder emits nothing for that slot and decoding continues
with the rest of the buffer unchanged. -/
theorem zero_length_record_skipped (e : RawEvent) (rest : List Nat)
    (h : e.name = []) :
    decode (encodeEvent e ++ rest) = decode rest := by
  have hd := decode_encode e rest (by simp [h]) (Or.inl h)
  rw [hd, if_neg (by simp [h])]

/-- Witness for C8: the zero-name record contributes nothing and the
following record is still decoded. -/
theorem zero_length_record_skipped_witness :
    decode (encodeEvent evNoName ++ encodeAll [evApk] []) =
      decode (encodeAll [evApk] []) :=
  zero_length_record_skipped evNoName (encodeAll [evApk] []) rfl

/-- Claim C6: `isApkFile` returns true exactly when the name has at least 4
bytes and its last 4 bytes, lowercased, are `".apk"`; together with the five
concrete examples from the spec. -/
theorem apk_predicate_characterization :
    (∀ s : List Nat, isApkFile s = true ↔ isApkFileSpec s) ∧
    isApkFile (strBytes "App.APK") = true ∧
    isApkFile (strBytes "app.apkx") = false ∧
    isApkFile (strBytes "a.apk") = true ∧
    isApkFile (strBytes "apk") = false ∧
    isApkFile (strBytes "") = false := by
  refine ⟨?_, by decide, by decide, by decide, by decide, by decide⟩
  intro s
  unfold isApkFile isApkFileSpec
  by_cases h : s.length < 4
  · have hcond : (s.isEmpty || decide (s.length < 4)) = true := by simp [h]
    rw [if_pos hcond]
    constructor
    · intro hh; exact absurd hh (by simp)
    · rintro ⟨h4, _⟩; omega
  · have h4 : 4 ≤ s.length := Nat.le_of_not_lt h
    have hne : s.isEmpty = false := by
      cases s with
      | nil => simp at h4
      | cons a t => rfl
    have hcond : ¬ (s.isEmpty || decide (s.length < 4)) = true := by
      simp [hne, h]
    rw [if_neg hcond]
    simp only [List.length_map, beq_iff_eq, List.map_drop]
    constructor
    · intro hh; exact ⟨h4, hh⟩
    · rintro ⟨_, hh⟩; exact hh

/-- Claim C7: a second `start()` on an active watcher returns failure and
leaves the whole state — monitoring flags, callback reference count, kernel
handle, watch, thread phase — untouched. -/
theorem second_start_rejected (w : World) (env : StartEnv)
    (h : w.monitoring = true) :
    startMonitoring w env = (false, w) := by
  simp [startMonitoring, h]

/-- Witness for C7 at a live session and an all-succeeding environment. -/
theorem second_start_rejected_witness :
    startMonitoring wLive envAllOk = (false, wLive) :=
  second_start_rejected wLive envAllOk rfl

/-- Claim C1 counterexample: with an environment in which the kernel event
source cannot be created (`inotify_init1` fails), `startMonitoring`
nevertheless returns `true` — the caller observes success, not the failure
the claim requires, because the inotify calls happen in the spawned thread
after `startMonitoring` has already returned. -/
theorem subscription_failure_not_reported_by_start :
    envInitFail.initOk = false ∧
    (startMonitoring World.initial envInitFail).1 = true := by decide

/-- Claim C1 amended: when creating the kernel event source or registering
the watch fails, the failure is handled asynchronously in the background
thread — which clears the monitoring flag, releases the consumer reference
and any partially created kernel handle, and exits — while the caller of
`startMonitoring` has already received `true`. -/
theorem subscription_failure_cleanup_is_asynchronous (w : World) (env : StartEnv)
    (hs : (startMonitoring w env).1 = true)
    (ha : env.attachOk = true)
    (hf : env.initOk = false ∨ env.watchOk = false)
    (hfd : w.fdOpen = false) :
    (threadInit (startMonitoring w env).2 env).monitoring = false ∧
    (threadInit (startMonitoring w env).2 env).refCount = w.refCount ∧
    (threadInit (startMonitoring w env).2 env).fdOpen = false ∧
    (threadInit (startMonitoring w env).2 env).phase = Phase.exitedThread := by
  rcases hf with hi | hw <;>
    cases hm : w.monitoring <;> cases hd : env.dirOk <;>
    cases hj : env.jvmOk <;> cases hr : env.refOk <;>
    simp_all [startMonitoring, threadInit]

/-- Witness for the amended C1 at a fresh monitor and the environment where
only `inotify_init1` fails. -/
theorem subscription_failure_cleanup_is_asynchronous_witness :
    (threadInit (startMonitoring World.initial envInitFail).2 envInitFail).monitoring = false ∧
    (threadInit (startMonitoring World.initial envInitFail).2 envInitFail).refCount = World.initial.refCount ∧
    (threadInit (startMonitoring World.initial envInitFail).2 envInitFail).fdOpen = false ∧
    (threadInit (startMonitoring World.initial envInitFail).2 envInitFail).phase = Phase.exitedThread :=
  subscription_failure_cleanup_is_asynchronous World.initial envInitFail
    (by decide) rfl (Or.inl rfl) rfl

/-- Claim C2 counterexample: a `read` failure whose errno is NOT
would-block does not terminate the loop — the code logs it and falls into
the same `continue` as the would-block case (lines 154-159). -/
theorem nontransient_read_error_does_not_terminate :
    loopIterControl SelectOutcome.selReady (ReadOutcome.readErr false) = LoopControl.next ∧
    ¬ loopIterControl SelectOutcome.selReady (ReadOutcome.readErr false) = LoopControl.exitLoop := by
  decide

/-- Claim C2 amended: a would-block read failure is ignored and the loop
continues, and a read failure with any other error is logged but likewise
ignored — no read failure terminates the loop.  Only a `select` failure with
errno other than EINTR terminates it, after which the cleanup block releases
the watch, the kernel handle and the consumer reference and exits, as a
`stop()` would. -/
theorem read_errors_never_terminate_loop :
    (∀ wb : Bool, loopIterControl SelectOutcome.selReady (ReadOutcome.readErr wb) = LoopControl.next) ∧
    (∀ rd : ReadOutcome, loopIterControl (SelectOutcome.selErr false) rd = LoopControl.exitLoop) ∧
    (∀ w : World,
      (runSteps 4 (breakLoop w)).phase = Phase.exitedThread ∧
      (runSteps 4 (breakLoop w)).refCount = w.refCount - 1 ∧
      (runSteps 4 (breakLoop w)).fdOpen = false ∧
      (runSteps 4 (breakLoop w)).watchOn = false ∧
      (runSteps 4 (breakLoop w)).monitoring = false) := by
  refine ⟨by decide, ?_, ?_⟩
  · intro rd; cases rd <;> rfl
  · intro w
    simp [runSteps, threadStep, breakLoop]

/-- Claim C3 counterexample: the state reached when the loop terminated
itself (select failure) and the cleanup has cleared `monitoring_` (line 236)
but not yet released the global callback reference (line 239).  Calling
`stopMonitoring` there returns immediately — `stop()` has returned while the
background thread has neither exited nor released the consumer reference. -/
theorem stop_returns_during_self_termination_cleanup :
    wMidCleanup = threadStep (threadStep (breakLoop wLive)) ∧
    stopMonitoring wMidCleanup = wMidCleanup ∧
    wMidCleanup.refCount = 1 ∧
    ¬ wMidCleanup.phase = Phase.exitedThread := by decide

/-- Claim C3 amended: `stop()` is a no-op whenever the monitoring flag is
false — including when the self-terminated loop is still mid-cleanup, in
which case it can return before the thread has exited — and blocks until the
thread has fully exited and released the kernel handle and consumer
reference only when the flag is still true at entry. -/
theorem stop_joins_only_when_flag_set (w : World) :
    (w.monitoring = false → stopMonitoring w = w) ∧
    (w.monitoring = true →
      (w.phase = Phase.looping ∨ w.phase = Phase.afterRm ∨ w.phase = Phase.afterClose) →
      (w.phase = Phase.afterClose → w.fdOpen = false) →
      (stopMonitoring w).phase = Phase.exitedThread ∧
      (stopMonitoring w).refCount = w.refCount - 1 ∧
      (stopMonitoring w).fdOpen = false ∧
      (stopMonitoring w).monitoring = false) := by
  constructor
  · intro hm; simp [stopMonitoring, hm]
  · intro hm hph hfd
    rcases hph with h | h | h <;>
      simp_all [stopMonitoring, runSteps, threadStep]

/-- Witness for the amended C3: the no-op half at the mid-cleanup state,
the joining half at a live looping session. -/
theorem stop_joins_only_when_flag_set_witness :
    stopMonitoring wMidCleanup = wMidCleanup ∧
    (stopMonitoring wLive).phase = Phase.exitedThread ∧
    (stopMonitoring wLive).refCount = wLive.refCount - 1 ∧
    (stopMonitoring wLive).fdOpen = false ∧
    (stopMonitoring wLive).monitoring = false :=
  ⟨(stop_joins_only_when_flag_set wMidCleanup).1 rfl,
   (stop_joins_only_when_flag_set wLive).2 rfl (Or.inl rfl)
     (fun h => absurd h (by decide))⟩

/-- Claim C4, code-bug evidence: when `AttachCurrentThread` fails after a
successful `startMonitoring`, the monitor thread returns without releasing
the global callback reference, and no later operation — not even
`stopMonitoring` / destruction — releases it: the reference count stays 1
forever although the thread has exited.  (The code's own comment at lines
94-95 claims the destructor will clean it up; nothing does.) -/
theorem attach_failure_leaks_consumer_reference :
    (startMonitoring World.initial envAttachFail).1 = true ∧
    (threadInit (startMonitoring World.initial envAttachFail).2 envAttachFail).refCount = 1 ∧
    (threadInit (startMonitoring World.initial envAttachFail).2 envAttachFail).phase = Phase.exitedThread ∧
    (stopMonitoring (threadInit (startMonitoring World.initial envAttachFail).2 envAttachFail)).refCount = 1 := by
  decide

/-- Helper: every branch of per-record handling continues the loop. -/
theorem processRecord_control (name : List Nat) (env : DeliverEnv) :
    (processRecord name env).2 = LoopControl.next := by
  unfold processRecord
  repeat' split
  all_goals rfl

/-- Claim C9: per-candidate failures are non-fatal.  Every branch of
per-record handling yields `next` (never `exitLoop`); consequently a whole
buffer of records is processed to the end, one outcome per record; a failed
post-settle stat skips the candidate and moves on; and a throwing consumer
callback is captured (`ExceptionClear`) while the loop still continues. -/
theorem per_candidate_failures_nonfatal :
    (∀ name env, (processRecord name env).2 = LoopControl.next) ∧
    (∀ names envs, (processRecords names envs).length = names.length) ∧
    (∀ name, processRecord name ⟨false, true, true, true, false⟩ =
      (if isApkFile name then RecordOutcome.statFailed else RecordOutcome.notApk,
       LoopControl.next)) ∧
    (∀ name, processRecord name ⟨true, true, true, true, true⟩ =
      (if isApkFile name then RecordOutcome.delivered true else RecordOutcome.notApk,
       LoopControl.next)) := by
  refine ⟨processRecord_control, ?_, ?_, ?_⟩
  · intro names
    induction names with
    | nil => intro envs; rfl
    | cons n rest ih =>
      intro envs
      have h := processRecord_control n (envs.headD ⟨true, true, true, true, false⟩)
      unfold processRecords
      rcases hp : processRecord n (envs.headD ⟨true, true, true, true, false⟩) with ⟨o, c⟩
      rw [hp] at h
      simp only at h
      subst h
      simp [ih]
  · intro name
    by_cases h : isApkFile name <;> simp [processRecord, h]
  · intro name
    by_cases h : isApkFile name <;> simp [processRecord, h]

/-- Claim C10: every JNI entry point guards its handle and object
parameters.  A zero handle makes `nativeStartMonitoring` return false,
`nativeScanApk` return null, and `nativeStopMonitoring` and the two destroy
functions no-ops; a null directory, callback or apkPath makes the start and
scan entry points return false / null with the monitor world and the
scanner continuation untouched (both are universally quantified). -/
theorem jni_entry_point_guards :
    (∀ d c w env g x, nativeStartMonitoring 0 d c w env g x = (false, w)) ∧
    (∀ h c w env g x, nativeStartMonitoring h none c w env g x = (false, w)) ∧
    (∀ h d w env g x, nativeStartMonitoring h d none w env g x = (false, w)) ∧
    (∀ w, nativeStopMonitoring 0 w = w) ∧
    (∀ w, nativeDestroyFileMonitor 0 w = (w, false)) ∧
    (∀ (α : Type) p g doScan, nativeScanApk α 0 p g doScan = none) ∧
    (∀ (α : Type) h g doScan, nativeScanApk α h none g doScan = none) ∧
    nativeDestroyMalwareScanner 0 = false := by
  refine ⟨?_, ?_, ?_, ?_, ?_, ?_, ?_, rfl⟩
  · intro d c w env g x
    rcases d with _ | d <;> rcases c with _ | c <;>
      simp [nativeStartMonitoring]
  · intro h c w env g x
    by_cases hh : h = 0 <;> rcases c with _ | c <;>
      simp [nativeStartMonitoring, hh]
  · intro h d w env g x
    by_cases hh : h = 0 <;> rcases d with _ | d <;>
      simp [nativeStartMonitoring, hh]
  · intro w; rfl
  · intro w; rfl
  · intro α p g doScan; rfl
  · intro α h g doScan
    by_cases hh : h = 0 <;> simp [nativeScanApk, hh]

end WhatsZap
